import Mathlib

/-!
Verification of the civic-issue backend's AI-response normalization and
status-workflow layer (`src/ai_service.py`, `src/main.py`).

The Python code is shallowly embedded: Python/JSON runtime values become the
inductive type `Json` (Firestore's server-timestamp sentinel is a distinguished
constructor), Python dicts become ordered association lists with in-place
overwrite on re-assignment, `json.loads` becomes the executable parser
`json_loads` (mirroring CPython's scanner: whitespace handling, constants,
the number regex, string escapes, duplicate keys resolved last-wins, and an
extra-data check at top level), and code that may raise returns `Except PyErr`.
The external model call is abstracted by `ModelOutcome` (the call either raises
or yields a response text), exactly the two behaviours visible to the code.
-/

namespace Civic

/-- A Python/JSON runtime value. Numbers are kept as their source lexeme
(no claim in this development depends on numeric arithmetic).
`serverTimestamp` embeds `firestore.SERVER_TIMESTAMP`, the placeholder object
the persistence layer resolves to the write time. -/
inductive Json where
  | null
  | bool (b : Bool)
  | num (lexeme : String)
  | str (s : String)
  | arr (elems : List Json)
  | obj (fields : List (String × Json))
  | serverTimestamp

/-- A Python dict, as an insertion-ordered association list. -/
abbrev PyDict := List (String × Json)

/-- Exceptions the embedded code can raise. -/
inductive PyErr where
  | typeError
  | jsonDecodeError
  | attributeError
deriving DecidableEq

/-- Python dict lookup: first (and, for dicts built by `dictInsert`, only)
binding of the key. -/
def dictGet : PyDict → String → Option Json
  | [], _ => none
  | (k, v) :: rest, key => if k = key then some v else dictGet rest key

/-- Python dict assignment `d[key] = val`: overwrite in place if the key is
present (keeping its insertion position), else append. -/
def dictInsert : PyDict → String → Json → PyDict
  | [], key, val => [(key, val)]
  | (k, v) :: rest, key, val =>
      if k = key then (k, val) :: rest else (k, v) :: dictInsert rest key val

/-- Python `key in d`. -/
def hasKey (d : PyDict) (k : String) : Bool := (dictGet d k).isSome

/-- The values of a dict, in order. -/
def dictValues (d : PyDict) : List Json := d.map Prod.snd

/-- The keys of a dict, in order. -/
def dictKeys (d : PyDict) : List String := d.map Prod.fst

/-- Firestore `update`: set every field of the patch on the document,
left to right. -/
def applyPatch (doc : PyDict) (patch : PyDict) : PyDict :=
  patch.foldl (fun d kv => dictInsert d kv.1 kv.2) doc

/-- The opening-brace character, written via its code point. -/
def lbrace : Char := Char.ofNat 123

/-- The closing-brace character, written via its code point. -/
def rbrace : Char := Char.ofNat 125

/-! ### The JSON parser (embedding of CPython `json.loads`) -/

/-- JSON whitespace, as skipped by CPython's decoder. -/
def isJsonWs (c : Char) : Bool := c == ' ' || c == '\t' || c == '\n' || c == '\r'

/-- Skip JSON whitespace. -/
def skipWs (cs : List Char) : List Char := cs.dropWhile isJsonWs

/-- Value of a hexadecimal digit. -/
def hexDigit? (c : Char) : Option Nat :=
  if '0' ≤ c ∧ c ≤ '9' then some (c.toNat - 48)
  else if 'a' ≤ c ∧ c ≤ 'f' then some (c.toNat - 87)
  else if 'A' ≤ c ∧ c ≤ 'F' then some (c.toNat - 55)
  else none

/-- Decimal digit test (ASCII), as in the scanner's number regex. -/
def isDig (c : Char) : Bool := '0' ≤ c && c ≤ '9'

/-- Parse the body of a JSON string (the opening quote already consumed),
accumulating decoded characters in reverse. Mirrors CPython `py_scanstring`
in strict mode: the eight simple escapes, `\uXXXX` with surrogate-pair
combination, and rejection of unescaped control characters. -/
def pStringBody : Nat → List Char → List Char → Option (String × List Char)
  | 0, _, _ => none
  | fuel + 1, acc, cs =>
    match cs with
    | [] => none
    | c :: rest =>
      if c = '"' then some (String.mk acc.reverse, rest)
      else if c = '\\' then
        match rest with
        | [] => none
        | e :: rest2 =>
          if e = '"' then pStringBody fuel ('"' :: acc) rest2
          else if e = '\\' then pStringBody fuel ('\\' :: acc) rest2
          else if e = '/' then pStringBody fuel ('/' :: acc) rest2
          else if e = 'b' then pStringBody fuel ('\x08' :: acc) rest2
          else if e = 'f' then pStringBody fuel ('\x0c' :: acc) rest2
          else if e = 'n' then pStringBody fuel ('\n' :: acc) rest2
          else if e = 'r' then pStringBody fuel ('\r' :: acc) rest2
          else if e = 't' then pStringBody fuel ('\t' :: acc) rest2
          else if e = 'u' then
            match rest2 with
            | a :: b :: c2 :: d :: rest3 =>
              match hexDigit? a, hexDigit? b, hexDigit? c2, hexDigit? d with
              | some ha, some hb, some hc, some hd =>
                let code := ((ha * 16 + hb) * 16 + hc) * 16 + hd
                if 0xD800 ≤ code ∧ code ≤ 0xDBFF then
                  match rest3 with
                  | '\\' :: 'u' :: a2 :: b2 :: c3 :: d2 :: rest4 =>
                    match hexDigit? a2, hexDigit? b2, hexDigit? c3, hexDigit? d2 with
                    | some ha2, some hb2, some hc2, some hd2 =>
                      let lo := ((ha2 * 16 + hb2) * 16 + hc2) * 16 + hd2
                      if 0xDC00 ≤ lo ∧ lo ≤ 0xDFFF then
                        let comb := 0x10000 + (code - 0xD800) * 0x400 + (lo - 0xDC00)
                        pStringBody fuel (Char.ofNat comb :: acc) rest4
                      else pStringBody fuel (Char.ofNat code :: acc) rest3
                    | _, _, _, _ => pStringBody fuel (Char.ofNat code :: acc) rest3
                  | _ => pStringBody fuel (Char.ofNat code :: acc) rest3
                else pStringBody fuel (Char.ofNat code :: acc) rest3
              | _, _, _, _ => none
            | _ => none
          else none
      else if c.toNat < 0x20 then none
      else pStringBody fuel (c :: acc) rest

/-- The fractional part of the scanner's number regex: `(\.\d+)?`.
Returns the consumed lexeme characters and the remaining input. -/
def pFrac (cs : List Char) : List Char × List Char :=
  match cs with
  | '.' :: r =>
      let ds := r.takeWhile isDig
      if ds.isEmpty then ([], cs) else ('.' :: ds, r.drop ds.length)
  | _ => ([], cs)

/-- The exponent part of the scanner's number regex: `([eE][-+]?\d+)?`. -/
def pExp (cs : List Char) : List Char × List Char :=
  match cs with
  | e :: r =>
    if e = 'e' || e = 'E' then
      match r with
      | s :: r2 =>
        if s = '+' || s = '-' then
          let ds := r2.takeWhile isDig
          if ds.isEmpty then ([], cs) else (e :: s :: ds, r2.drop ds.length)
        else
          let ds := r.takeWhile isDig
          if ds.isEmpty then ([], cs) else (e :: ds, r.drop ds.length)
      | [] => ([], cs)
    else ([], cs)
  | [] => ([], cs)

/-- The integer part of the number regex: `-?(0|[1-9]\d*)`, then fraction and
exponent. Returns the matched lexeme. Mirrors the scanner's `NUMBER_RE`. -/
def pNumber (cs : List Char) : Option (String × List Char) :=
  let signed := fun (intro : List Char) (cs1 : List Char) =>
    match cs1 with
    | c :: r =>
      if c = '0' then
        let (fr, r2) := pFrac r
        let (ex, r3) := pExp r2
        some (String.mk (intro ++ [c] ++ fr ++ ex), r3)
      else if isDig c then
        let ds := r.takeWhile isDig
        let r1 := r.drop ds.length
        let (fr, r2) := pFrac r1
        let (ex, r3) := pExp r2
        some (String.mk (intro ++ [c] ++ ds ++ fr ++ ex), r3)
      else none
    | [] => none
  match cs with
  | '-' :: r => signed ['-'] r
  | _ => signed [] cs

mutual

/-- Parse one JSON value at the head of the input (whitespace already
skipped, as in CPython `_scan_once`). Dispatch on the first character:
string, object, array, the constants `null`/`true`/`false`/`NaN`/
`Infinity`/`-Infinity`, else a number. -/
def pValue : Nat → List Char → Option (Json × List Char)
  | 0, _ => none
  | fuel + 1, cs =>
    match cs with
    | [] => none
    | c :: rest =>
      if c = '"' then
        match pStringBody (rest.length + 1) [] rest with
        | some (s, r) => some (Json.str s, r)
        | none => none
      else if c = lbrace then
        match skipWs rest with
        | [] => none
        | c2 :: r2 =>
          if c2 = rbrace then some (Json.obj [], r2)
          else
            match pMembers fuel (c2 :: r2) [] with
            | some (d, r3) => some (Json.obj d, r3)
            | none => none
      else if c = '[' then
        match skipWs rest with
        | [] => none
        | c2 :: r2 =>
          if c2 = ']' then some (Json.arr [], r2)
          else
            match pElems fuel (c2 :: r2) [] with
            | some (l, r3) => some (Json.arr l, r3)
            | none => none
      else if c = 'n' then
        match rest with
        | 'u' :: 'l' :: 'l' :: r => some (Json.null, r)
        | _ => none
      else if c = 't' then
        match rest with
        | 'r' :: 'u' :: 'e' :: r => some (Json.bool true, r)
        | _ => none
      else if c = 'f' then
        match rest with
        | 'a' :: 'l' :: 's' :: 'e' :: r => some (Json.bool false, r)
        | _ => none
      else if c = 'N' then
        match rest with
        | 'a' :: 'N' :: r => some (Json.num "NaN", r)
        | _ => none
      else if c = 'I' then
        match rest with
        | 'n' :: 'f' :: 'i' :: 'n' :: 'i' :: 't' :: 'y' :: r =>
            some (Json.num "Infinity", r)
        | _ => none
      else if c = '-' then
        match rest with
        | 'I' :: 'n' :: 'f' :: 'i' :: 'n' :: 'i' :: 't' :: 'y' :: r =>
            some (Json.num "-Infinity", r)
        | _ =>
          match pNumber cs with
          | some (lx, r) => some (Json.num lx, r)
          | none => none
      else
        match pNumber cs with
        | some (lx, r) => some (Json.num lx, r)
        | none => none

/-- Parse the members of an object, the input positioned at a key
(whitespace skipped). Duplicate keys: last value wins, first position kept,
as CPython's `dict(pairs)` does. -/
def pMembers : Nat → List Char → PyDict → Option (PyDict × List Char)
  | 0, _, _ => none
  | fuel + 1, cs, acc =>
    match cs with
    | c :: r =>
      if c = '"' then
        match pStringBody (r.length + 1) [] r with
        | none => none
        | some (k, r1) =>
          match skipWs r1 with
          | ':' :: r2 =>
            match pValue fuel (skipWs r2) with
            | none => none
            | some (v, r3) =>
              let acc2 := dictInsert acc k v
              match skipWs r3 with
              | ',' :: r4 => pMembers fuel (skipWs r4) acc2
              | c2 :: r4 => if c2 = rbrace then some (acc2, r4) else none
              | [] => none
          | _ => none
      else none
    | [] => none

/-- Parse the elements of an array, the input positioned at a value
(whitespace skipped). -/
def pElems : Nat → List Char → List Json → Option (List Json × List Char)
  | 0, _, _ => none
  | fuel + 1, cs, acc =>
    match pValue fuel cs with
    | none => none
    | some (v, r) =>
      let acc2 := acc ++ [v]
      match skipWs r with
      | ',' :: r2 => pElems fuel (skipWs r2) acc2
      | c :: r2 => if c = ']' then some (acc2, r2) else none
      | [] => none

end

/-- Embedding of `json.loads` on a text: skip leading whitespace, scan one
value, and require the rest to be whitespace (CPython's "Extra data" check).
Any syntax failure is the (caught or uncaught) `JSONDecodeError`. -/
def json_loads (s : String) : Except PyErr Json :=
  match pValue (s.length + 1) (skipWs s.data) with
  | some (v, rest) =>
      if (skipWs rest).isEmpty then Except.ok v else Except.error PyErr.jsonDecodeError
  | none => Except.error PyErr.jsonDecodeError

/-! ### Python string helpers -/

/-- Whitespace stripped by Python `str.strip()` (ASCII range). -/
def isPyWs (c : Char) : Bool :=
  c == ' ' || c == '\t' || c == '\n' || c == '\r' || c == '\x0b' || c == '\x0c'

/-- Embedding of Python `str.strip()`. -/
def pyStrip (s : String) : String :=
  String.mk (((s.data.dropWhile isPyWs).reverse.dropWhile isPyWs).reverse)

/-- Embedding of Python `str.lower()` (ASCII letters, all the code uses). -/
def pyLower (s : String) : String := String.mk (s.data.map Char.toLower)

/-- `json.loads` applied to an arbitrary Python value, as
`main.report_issue` does with the value returned by `analyze_issue`:
CPython raises `TypeError` unless the argument is `str`/`bytes`. -/
def json_loads_pyvalue : Json → Except PyErr Json
  | Json.str s => json_loads s
  | _ => Except.error PyErr.typeError

/-! ### `ai_service.analyze_issue` -/

/-- The two outcomes of `model.generate_content(prompt)` followed by
`response.text` that the code distinguishes: the call raises (any exception,
carrying its message), or it yields a response text. -/
inductive ModelOutcome where
  | failure (errMsg : String)
  | success (text : String)

/-- The suffix of the input starting at its first opening brace, if any. -/
def fromFirstLbrace : List Char → Option (List Char)
  | [] => none
  | c :: rest => if c = lbrace then some (c :: rest) else fromFirstLbrace rest

/-- The prefix of the input ending at its last closing brace, if any. -/
def upToLastRbrace (l : List Char) : Option (List Char) :=
  let r := l.reverse.dropWhile (fun c => !(c == rbrace))
  if r.isEmpty then none else some r.reverse

/-- Embedding of `re.search(r"\x7b.*\x7d", text, re.DOTALL)` followed by
`.group()`: the (unique, leftmost-longest) match runs from the first `\x7b`
of the text to its last `\x7d`, and exists when the latter lies strictly
after the former. -/
def extract_json_span (text : String) : Option String :=
  match fromFirstLbrace text.data with
  | none => none
  | some suffix =>
    match suffix with
    | c :: t =>
      match upToLastRbrace t with
      | none => none
      | some t2 => some (String.mk (c :: t2))
    | [] => none

/-- Embedding of `ai_service.analyze_issue`. The prompt only feeds the
abstracted model call, so it does not appear. On model failure the function
returns the fallback dict (with a fifth `error` field holding the exception
text); otherwise it strips the response, extracts the brace span, and either
returns the invalid-format dict (no span) or the result of `json.loads` on
the span — which raises `JSONDecodeError` out of the function when the span
is not valid JSON. -/
def analyze_issue (m : ModelOutcome) (description : String) : Except PyErr Json :=
  match m with
  | ModelOutcome.failure e =>
      Except.ok (Json.obj
        [("category", Json.str "Uncategorized"),
         ("severity", Json.str "Low"),
         ("department", Json.str "General"),
         ("actions", Json.arr [Json.str "Manual review required"]),
         ("error", Json.str e)])
  | ModelOutcome.success t =>
      let text := pyStrip t
      match extract_json_span text with
      | none => Except.ok (Json.obj [("error", Json.str "Invalid AI response format")])
      | some s => json_loads s

/-! ### `main.report_issue` — issue creation -/

/-- Python `dict.get(key)` called on an arbitrary value: `None` (null) for a
missing key, `AttributeError` if the receiver is not a dict. -/
def py_dict_get (j : Json) (key : String) : Except PyErr Json :=
  match j with
  | Json.obj d => Except.ok ((dictGet d key).getD Json.null)
  | _ => Except.error PyErr.attributeError

/-- The `except`-branch dict of `main.report_issue`'s safe-parse block. -/
def report_fallback_ai_json : PyDict :=
  [("ai_summary", Json.null),
   ("severity", Json.str "Pending"),
   ("risk_level", Json.null),
   ("priority_score", Json.null),
   ("category", Json.str "Other"),
   ("department", Json.str "Municipality"),
   ("suggested_actions", Json.arr [])]

/-- The try/except block of `main.report_issue`:
`ai_text = analyze_issue(description); ai_json = json.loads(ai_text)`,
any exception from either step replaced by the local fallback dict. -/
def report_issue_ai_json (m : ModelOutcome) (description : String) : Json :=
  match analyze_issue m description with
  | Except.error _ => Json.obj report_fallback_ai_json
  | Except.ok ai_text =>
    match json_loads_pyvalue ai_text with
    | Except.error _ => Json.obj report_fallback_ai_json
    | Except.ok j => j

/-- `image_url` is `None` or the Cloudinary secure URL. -/
def jsonOfOptStr : Option String → Json
  | none => Json.null
  | some u => Json.str u

/-- The `issue_data` record built and persisted by `main.report_issue`
(latitude/longitude kept as their numeric lexemes, `created_at` the
`datetime.utcnow().isoformat()` string, both opaque here). The `.get` calls
sit outside the try/except, so an `AttributeError` they raised would escape;
the result is therefore an `Except`. -/
def report_issue_issue_data (m : ModelOutcome) (description lat lon : String)
    (image_url : Option String) (created_at : String) : Except PyErr PyDict :=
  let ai_json := report_issue_ai_json m description
  match py_dict_get ai_json "ai_summary", py_dict_get ai_json "severity",
        py_dict_get ai_json "risk_level", py_dict_get ai_json "priority_score",
        py_dict_get ai_json "category", py_dict_get ai_json "department",
        py_dict_get ai_json "suggested_actions" with
  | Except.ok s, Except.ok sev, Except.ok rl, Except.ok ps,
    Except.ok cat, Except.ok dep, Except.ok act =>
      Except.ok
        [("title", Json.str "Citizen Issue Report"),
         ("description", Json.str description),
         ("latitude", Json.num lat),
         ("longitude", Json.num lon),
         ("image_url", jsonOfOptStr image_url),
         ("status", Json.str "Pending"),
         ("created_at", Json.str created_at),
         ("ai_summary", s),
         ("severity", sev),
         ("risk_level", rl),
         ("priority_score", ps),
         ("category", cat),
         ("department", dep),
         ("suggested_actions", act)]
  | _, _, _, _, _, _, _ => Except.error PyErr.attributeError

/-! ### `main.update_status` and `main.assign_officer` — workflow engine -/

/-- The `update_data` patch of `main.update_status`: always `status`, `notes`
and the `updated_at` sentinel; `resolved_image` when a proof image was
uploaded; the `resolved_at` sentinel when `status.lower() == "resolved"`. -/
def update_status_update_data (status notes : String)
    (proof_image_url : Option String) : PyDict :=
  let d0 : PyDict :=
    [("status", Json.str status), ("notes", Json.str notes),
     ("updated_at", Json.serverTimestamp)]
  let d1 : PyDict :=
    match proof_image_url with
    | some url => dictInsert d0 "resolved_image" (Json.str url)
    | none => d0
  if pyLower status = "resolved" then dictInsert d1 "resolved_at" Json.serverTimestamp
  else d1

/-- The `update` object of `main.update_status`'s JSON response:
`\x7b**update_data, "updated_at": "SERVER_TIMESTAMP", "resolved_at":
"SERVER_TIMESTAMP" if "resolved_at" in update_data else None\x7d`. -/
def update_status_response_update (update_data : PyDict) : PyDict :=
  dictInsert
    (dictInsert update_data "updated_at" (Json.str "SERVER_TIMESTAMP"))
    "resolved_at"
    (if hasKey update_data "resolved_at" then Json.str "SERVER_TIMESTAMP" else Json.null)

/-- The patch `main.assign_officer` writes for an existing issue. -/
def assign_officer_patch (officer_id officer_name : String) : PyDict :=
  [("assigned_officer_id", Json.str officer_id),
   ("assigned_officer_name", Json.str officer_name),
   ("status", Json.str "In-Progress"),
   ("assigned_at", Json.serverTimestamp)]

/-- The issues collection, keyed by document id. -/
abbrev Db := List (String × PyDict)

/-- Firestore `collection.document(id).get()`. -/
def dbGet : Db → String → Option PyDict
  | [], _ => none
  | (k, v) :: rest, key => if k = key then some v else dbGet rest key

/-- Embedding of `main.assign_officer`: not-found error, or the patch it
writes (and from which its JSON response is built). -/
def assign_officer (db : Db) (issue_id officer_id officer_name : String) :
    Except String PyDict :=
  match dbGet db issue_id with
  | none => Except.error "Issue not found"
  | some _ => Except.ok (assign_officer_patch officer_id officer_name)

/-! ### The persisted-record transition system

An issue document is created by `report_issue` and then mutated by the two
workflow endpoints, each of which applies its patch with Firestore `update`
(set every patch field). -/

/-- A workflow operation on a persisted issue. -/
inductive WorkOp where
  | updateStatus (status notes : String) (proof_image_url : Option String)
  | assignOfficer (officer_id officer_name : String)

/-- The patch an operation writes. -/
def opPatch : WorkOp → PyDict
  | WorkOp.updateStatus st notes pf => update_status_update_data st notes pf
  | WorkOp.assignOfficer oid oname => assign_officer_patch oid oname

/-- One workflow step on a persisted document. -/
def stepDoc (doc : PyDict) (op : WorkOp) : PyDict := applyPatch doc (opPatch op)

/-- A sequence of workflow steps. -/
def runOps (doc : PyDict) (ops : List WorkOp) : PyDict := ops.foldl stepDoc doc

/-- The status invariant the spec states for persisted records. -/
def StatusInEnum (d : PyDict) : Prop :=
  dictGet d "status" = some (Json.str "Pending") ∨
  dictGet d "status" = some (Json.str "In-Progress") ∨
  dictGet d "status" = some (Json.str "Resolved")

/-- An operation that only writes enum statuses: assignment always does;
a status update does exactly when the caller supplied an enum value. -/
def OpKeepsEnum : WorkOp → Prop
  | WorkOp.updateStatus st _ _ =>
      st = "Pending" ∨ st = "In-Progress" ∨ st = "Resolved"
  | WorkOp.assignOfficer _ _ => True

/-- A status update whose supplied status case-insensitively equals
"resolved" — the only operation that writes `resolved_at`. -/
def IsResolvedUpdate : WorkOp → Prop
  | WorkOp.updateStatus st _ _ => pyLower st = "resolved"
  | WorkOp.assignOfficer _ _ => False

/-- The record `report_issue` persists, as a function of its inputs: the
fixed creation fields plus the local fallback AI fields (see
`report_ai_json_default` for why the fallback is always selected). -/
def default_issue_doc (description lat lon : String) (image_url : Option String)
    (created_at : String) : PyDict :=
  [("title", Json.str "Citizen Issue Report"),
   ("description", Json.str description),
   ("latitude", Json.num lat),
   ("longitude", Json.num lon),
   ("image_url", jsonOfOptStr image_url),
   ("status", Json.str "Pending"),
   ("created_at", Json.str created_at),
   ("ai_summary", Json.null),
   ("severity", Json.str "Pending"),
   ("risk_level", Json.null),
   ("priority_score", Json.null),
   ("category", Json.str "Other"),
   ("department", Json.str "Municipality"),
   ("suggested_actions", Json.arr [])]

/-! ### Dictionary lemmas -/

theorem dictGet_dictInsert (d : PyDict) (k : String) (v : Json) (q : String) :
    dictGet (dictInsert d k v) q = if k = q then some v else dictGet d q := by
  induction d with
  | nil => simp [dictInsert, dictGet]
  | cons a t ih =>
    obtain ⟨k1, v1⟩ := a
    by_cases h1 : k1 = k
    · subst h1
      by_cases h2 : k1 = q <;> simp [dictInsert, dictGet, h2]
    · by_cases h2 : k1 = q
      · subst h2
        have hk : ¬ k = k1 := fun h => h1 h.symm
        simp [dictInsert, dictGet, h1, hk]
      · simp [dictInsert, dictGet, h1, h2, ih]

theorem hasKey_dictInsert (d : PyDict) (k : String) (v : Json) (q : String) :
    hasKey (dictInsert d k v) q = if k = q then true else hasKey d q := by
  by_cases h : k = q <;> simp [hasKey, dictGet_dictInsert, h]

/-! ### Structure of `analyze_issue` results -/

theorem fromFirstLbrace_some (l suf : List Char) (h : fromFirstLbrace l = some suf) :
    ∃ r, suf = lbrace :: r := by
  induction l with
  | nil => simp [fromFirstLbrace] at h
  | cons c rest ih =>
    by_cases hc : c = lbrace
    · subst hc
      simp [fromFirstLbrace] at h
      exact ⟨rest, h.symm⟩
    · simp [fromFirstLbrace, hc] at h
      exact ih h

theorem extract_json_span_lbrace (t s : String) (h : extract_json_span t = some s) :
    ∃ r, s.data = lbrace :: r := by
  unfold extract_json_span at h
  cases h1 : fromFirstLbrace t.data with
  | none => rw [h1] at h; cases h
  | some suffix =>
    rw [h1] at h
    obtain ⟨r, hr⟩ := fromFirstLbrace_some _ _ h1
    subst hr
    cases h2 : upToLastRbrace r with
    | none => simp [h2] at h
    | some t2 =>
      simp [h2] at h
      exact ⟨t2, by rw [← h]⟩

/-- The object branch of `pValue`, as a standalone (non-recursive) function:
`pValue (n + 1) (lbrace :: l)` is definitionally this. -/
def pObjDispatch (fuel : Nat) (rest : List Char) : Option (Json × List Char) :=
  match skipWs rest with
  | [] => none
  | c2 :: r2 =>
    if c2 = rbrace then some (Json.obj [], r2)
    else
      match pMembers fuel (c2 :: r2) [] with
      | some (d, r3) => some (Json.obj d, r3)
      | none => none

theorem pObjDispatch_obj (n : Nat) (l : List Char) (v : Json) (r : List Char)
    (h : pObjDispatch n l = some (v, r)) : ∃ fl, v = Json.obj fl := by
  unfold pObjDispatch at h
  split at h
  · cases h
  · split at h
    · cases h
      exact ⟨[], rfl⟩
    · split at h
      · cases h
        exact ⟨_, rfl⟩
      · cases h

theorem pValue_lbrace_obj (n : Nat) (l : List Char) (v : Json) (r : List Char)
    (h : pValue n (lbrace :: l) = some (v, r)) : ∃ fl, v = Json.obj fl := by
  match n with
  | 0 => simp [pValue] at h
  | n + 1 =>
    have hdef : pValue (n + 1) (lbrace :: l) = pObjDispatch n l := rfl
    rw [hdef] at h
    exact pObjDispatch_obj n l v r h

theorem json_loads_obj (s : String) (r : List Char) (hs : s.data = lbrace :: r)
    (v : Json) (h : json_loads s = Except.ok v) : ∃ fl, v = Json.obj fl := by
  unfold json_loads at h
  rw [hs] at h
  have hws : skipWs (lbrace :: r) = lbrace :: r := by
    simp [skipWs, List.dropWhile, show isJsonWs lbrace = false by decide]
  rw [hws] at h
  split at h
  · rename_i v0 rest h1
    split at h
    · cases h
      exact pValue_lbrace_obj _ _ _ _ h1
    · cases h
  · cases h

theorem analyze_ok_obj (m : ModelOutcome) (d : String) (v : Json)
    (h : analyze_issue m d = Except.ok v) : ∃ fl, v = Json.obj fl := by
  cases m with
  | failure e =>
    simp [analyze_issue] at h
    exact ⟨_, h.symm⟩
  | success t =>
    rw [analyze_issue] at h
    cases h1 : extract_json_span (pyStrip t) with
    | none =>
      rw [h1] at h
      cases h
      exact ⟨_, rfl⟩
    | some s =>
      rw [h1] at h
      obtain ⟨r, hr⟩ := extract_json_span_lbrace _ _ h1
      exact json_loads_obj s r hr v h

/-- `main.report_issue` applies `json.loads` to the dict returned by
`analyze_issue`, which raises `TypeError`; together with the exceptions
`analyze_issue` itself may raise, every path lands in the except-branch
fallback: the AI fields persisted at creation are always the local
defaults, whatever the model did. -/
theorem report_ai_json_default (m : ModelOutcome) (d : String) :
    report_issue_ai_json m d = Json.obj report_fallback_ai_json := by
  rw [report_issue_ai_json]
  cases hA : analyze_issue m d with
  | error e => rfl
  | ok v =>
    obtain ⟨fl, hv⟩ := analyze_ok_obj m d v hA
    subst hv
    rfl

theorem report_issue_always_defaults (m : ModelOutcome)
    (descr lat lon created : String) (img : Option String) :
    report_issue_issue_data m descr lat lon img created =
      Except.ok (default_issue_doc descr lat lon img created) := by
  rw [report_issue_issue_data]
  rw [report_ai_json_default]
  rfl

/-! ### Workflow patch lemmas -/

theorem hasKey_applyPatch (doc p : PyDict) (q : String) :
    hasKey (applyPatch doc p) q = (hasKey doc q || hasKey p q) := by
  induction p generalizing doc with
  | nil => simp [applyPatch, hasKey, dictGet]
  | cons a t ih =>
    obtain ⟨k1, v1⟩ := a
    have hstep : applyPatch doc ((k1, v1) :: t) = applyPatch (dictInsert doc k1 v1) t := rfl
    rw [hstep, ih]
    by_cases h : k1 = q
    · subst h
      simp [hasKey, dictGet, dictGet_dictInsert]
    · simp [hasKey, dictGet, dictGet_dictInsert, h]

theorem update_patch_status (d : PyDict) (st n : String) (pf : Option String) :
    dictGet (applyPatch d (update_status_update_data st n pf)) "status" =
      some (Json.str st) := by
  cases pf <;> by_cases hres : pyLower st = "resolved" <;>
    simp [update_status_update_data, hres, applyPatch, List.foldl, dictInsert,
      dictGet_dictInsert]

theorem assign_patch_status (d : PyDict) (oid oname : String) :
    dictGet (applyPatch d (assign_officer_patch oid oname)) "status" =
      some (Json.str "In-Progress") := by
  simp [assign_officer_patch, applyPatch, List.foldl, dictGet_dictInsert]

theorem update_patch_resolved_at (st n : String) (pf : Option String) :
    hasKey (update_status_update_data st n pf) "resolved_at" = true ↔
      pyLower st = "resolved" := by
  cases pf <;> by_cases hres : pyLower st = "resolved" <;>
    simp [update_status_update_data, hres, hasKey, dictInsert, dictGet]

theorem assign_patch_no_resolved_at (oid oname : String) :
    hasKey (assign_officer_patch oid oname) "resolved_at" = false := by
  simp [assign_officer_patch, hasKey, dictGet]

theorem stepDoc_status_enum (d : PyDict) (op : WorkOp) (hop : OpKeepsEnum op) :
    StatusInEnum (stepDoc d op) := by
  cases op with
  | updateStatus st n pf =>
    rcases hop with h1 | h1 | h1
    · subst h1
      exact Or.inl (update_patch_status d "Pending" n pf)
    · subst h1
      exact Or.inr (Or.inl (update_patch_status d "In-Progress" n pf))
    · subst h1
      exact Or.inr (Or.inr (update_patch_status d "Resolved" n pf))
  | assignOfficer oid oname =>
    exact Or.inr (Or.inl (assign_patch_status d oid oname))

theorem runOps_status_enum (ops : List WorkOp) (d : PyDict)
    (hd : StatusInEnum d) (hops : ∀ op ∈ ops, OpKeepsEnum op) :
    StatusInEnum (runOps d ops) := by
  induction ops generalizing d with
  | nil => exact hd
  | cons op t ih =>
    have hstep : runOps d (op :: t) = runOps (stepDoc d op) t := rfl
    rw [hstep]
    exact ih (stepDoc d op) (stepDoc_status_enum d op (hops op (by simp)))
      (fun o ho => hops o (by simp [ho]))

theorem stepDoc_resolved_at (d : PyDict) (op : WorkOp)
    (h : hasKey (stepDoc d op) "resolved_at" = true) :
    hasKey d "resolved_at" = true ∨ IsResolvedUpdate op := by
  cases op with
  | updateStatus st n pf =>
    rw [stepDoc, opPatch, hasKey_applyPatch] at h
    rcases Bool.or_eq_true_iff.mp h with h1 | h1
    · exact Or.inl h1
    · exact Or.inr ((update_patch_resolved_at st n pf).mp h1)
  | assignOfficer oid oname =>
    rw [stepDoc, opPatch, hasKey_applyPatch, assign_patch_no_resolved_at] at h
    simp at h
    exact Or.inl h

theorem runOps_resolved_at (ops : List WorkOp) (d : PyDict)
    (h : hasKey (runOps d ops) "resolved_at" = true) :
    hasKey d "resolved_at" = true ∨ ∃ op ∈ ops, IsResolvedUpdate op := by
  induction ops generalizing d with
  | nil => exact Or.inl h
  | cons op t ih =>
    have hstep : runOps d (op :: t) = runOps (stepDoc d op) t := rfl
    rw [hstep] at h
    rcases ih (stepDoc d op) h with h1 | h1
    · rcases stepDoc_resolved_at d op h1 with h2 | h2
      · exact Or.inl h2
      · exact Or.inr ⟨op, by simp, h2⟩
    · obtain ⟨o, ho, hres⟩ := h1
      exact Or.inr ⟨o, by simp [ho], hres⟩

theorem default_issue_doc_status (descr lat lon created : String)
    (img : Option String) :
    dictGet (default_issue_doc descr lat lon img created) "status" =
      some (Json.str "Pending") := by
  simp [default_issue_doc, dictGet]

theorem default_issue_doc_no_resolved_at (descr lat lon created : String)
    (img : Option String) :
    hasKey (default_issue_doc descr lat lon img created) "resolved_at" = false := by
  simp [default_issue_doc, hasKey, dictGet]

theorem report_ok_default (m : ModelOutcome) (descr lat lon created : String)
    (img : Option String) (d0 : PyDict)
    (h0 : report_issue_issue_data m descr lat lon img created = Except.ok d0) :
    d0 = default_issue_doc descr lat lon img created := by
  rw [report_issue_always_defaults m descr lat lon created img] at h0
  cases h0
  rfl

/-! ### The claims -/

/-- Claim C1 (code bug): with the model call failing and description
"pothole on Main St", the record `report_issue` persists carries severity
"Pending" and category "Other" — the creation path's local defaults — and
not the Analyzer fallback severity "Low" / category "Uncategorized" the
claim states: `json.loads` applied to the dict `analyze_issue` returns
raises `TypeError`, so the Analyzer fallback can never reach the record. -/
theorem c1_model_down_persists_creation_defaults (e lat lon created : String)
    (img : Option String) :
    ∃ d2, report_issue_issue_data (ModelOutcome.failure e) "pothole on Main St"
        lat lon img created = Except.ok d2 ∧
      dictGet d2 "severity" = some (Json.str "Pending") ∧
      dictGet d2 "category" = some (Json.str "Other") ∧
      ¬ dictGet d2 "severity" = some (Json.str "Low") ∧
      ¬ dictGet d2 "category" = some (Json.str "Uncategorized") := by
  refine ⟨_, report_issue_always_defaults _ _ _ _ _ _, ?_, ?_, ?_, ?_⟩ <;>
    simp [default_issue_doc, dictGet]

/-- Claim C2 counterexample: `analyze` is not total — when the model's text
yields a brace span that is not valid JSON, `json.loads` raises
`JSONDecodeError` out of `analyze_issue`. -/
theorem c2_counterexample :
    ¬ (∀ (m : ModelOutcome) (d : String), ∃ v, analyze_issue m d = Except.ok v) := by
  intro h
  obtain ⟨v, hv⟩ := h (ModelOutcome.success "\x7bx\x7d") "d"
  have hc : analyze_issue (ModelOutcome.success "\x7bx\x7d") "d" =
      Except.error PyErr.jsonDecodeError := rfl
  rw [hc] at hv
  cases hv

/-- Claim C2 as amended: `analyze` returns normally exactly when either the
model call fails, or the (stripped) response has no brace span, or the
extracted span is valid JSON; equivalently, it raises precisely when a span
is extracted but `json.loads` rejects it. -/
theorem c2_analyze_total_iff_span_parses (m : ModelOutcome) (d : String) :
    (∃ v, analyze_issue m d = Except.ok v) ↔
      (∀ t s, m = ModelOutcome.success t → extract_json_span (pyStrip t) = some s →
        ∃ j, json_loads s = Except.ok j) := by
  cases m with
  | failure e =>
    constructor
    · intro _ t s ht
      simp at ht
    · intro _
      exact ⟨_, rfl⟩
  | success t0 =>
    cases hext : extract_json_span (pyStrip t0) with
    | none =>
      constructor
      · intro _ t s ht hs
        obtain rfl : t0 = t := by cases ht; rfl
        rw [hext] at hs
        cases hs
      · intro _
        refine ⟨Json.obj [("error", Json.str "Invalid AI response format")], ?_⟩
        rw [analyze_issue, hext]
    | some s0 =>
      constructor
      · rintro ⟨v, hv⟩ t s ht hs
        obtain rfl : t0 = t := by cases ht; rfl
        rw [hext] at hs
        cases hs
        refine ⟨v, ?_⟩
        rw [analyze_issue, hext] at hv
        exact hv
      · intro h
        obtain ⟨j, hj⟩ := h t0 s0 rfl hext
        exact ⟨j, by rw [analyze_issue, hext]; exact hj⟩

/-- Witness for C2's amended theorem at a concrete model failure. -/
theorem c2_analyze_total_iff_span_parses_witness :
    ∃ v, analyze_issue (ModelOutcome.failure "net down") "pothole" = Except.ok v :=
  (c2_analyze_total_iff_span_parses (ModelOutcome.failure "net down") "pothole").mpr
    (by intro t s ht hs; simp at ht)

/-- Claim C3 counterexample: on model failure the returned record is not the
exact four-field fallback — it carries a fifth `error` field with the
exception text. -/
theorem c3_counterexample :
    analyze_issue (ModelOutcome.failure "boom") "pothole" ≠
      Except.ok (Json.obj
        [("category", Json.str "Uncategorized"), ("severity", Json.str "Low"),
         ("department", Json.str "General"),
         ("actions", Json.arr [Json.str "Manual review required"])]) := by
  intro h
  have hc : analyze_issue (ModelOutcome.failure "boom") "pothole" =
      Except.ok (Json.obj
        [("category", Json.str "Uncategorized"), ("severity", Json.str "Low"),
         ("department", Json.str "General"),
         ("actions", Json.arr [Json.str "Manual review required"]),
         ("error", Json.str "boom")]) := rfl
  rw [hc] at h
  simp at h

/-- Claim C3 as amended: on model failure `analyze` returns the four
documented fallback fields and values plus one extra `error` field holding
the exception's text. -/
theorem c3_failure_fallback_plus_error_field (e d : String) :
    analyze_issue (ModelOutcome.failure e) d =
      Except.ok (Json.obj
        [("category", Json.str "Uncategorized"), ("severity", Json.str "Low"),
         ("department", Json.str "General"),
         ("actions", Json.arr [Json.str "Manual review required"]),
         ("error", Json.str e)]) := rfl

/-- Model response text used for claim C4: a balanced JSON object with the
four fields. -/
def c4_contained_object_text : String :=
  "\x7b\"category\": \"Road\", \"severity\": \"High\", \"department\": \"PWD\", \"actions\": [\"Fix\"]\x7d"

/-- Model response text used for claim C4's counterexample: it contains the
balanced four-field object, followed by prose with one more closing brace. -/
def c4_response_text : String := c4_contained_object_text ++ " ok\x7d"

/-- Claim C4 counterexample: the response text contains a balanced JSON
object with all four fields, yet `analyze` does not return its fields — the
greedy first-brace-to-last-brace span also swallows the trailing prose and
brace, `json.loads` rejects it, and `analyze` raises. -/
theorem c4_counterexample :
    json_loads c4_contained_object_text = Except.ok (Json.obj
      [("category", Json.str "Road"), ("severity", Json.str "High"),
       ("department", Json.str "PWD"), ("actions", Json.arr [Json.str "Fix"])]) ∧
    c4_response_text = c4_contained_object_text ++ " ok\x7d" ∧
    analyze_issue (ModelOutcome.success c4_response_text) "d" =
      Except.error PyErr.jsonDecodeError := ⟨rfl, rfl, rfl⟩

/-- Claim C4 as amended: whenever the span extracted from the (stripped)
response — first opening brace through last closing brace — is itself valid
JSON, `analyze` returns the parsed value verbatim, with no further mutation
or validation. -/
theorem c4_span_verbatim (t d s : String) (j : Json)
    (h1 : extract_json_span (pyStrip t) = some s)
    (h2 : json_loads s = Except.ok j) :
    analyze_issue (ModelOutcome.success t) d = Except.ok j := by
  rw [analyze_issue, h1]
  exact h2

/-- Witness for C4's amended theorem: a clean four-field response is
returned verbatim. -/
theorem c4_span_verbatim_witness :
    analyze_issue (ModelOutcome.success c4_contained_object_text) "d" =
      Except.ok (Json.obj
        [("category", Json.str "Road"), ("severity", Json.str "High"),
         ("department", Json.str "PWD"), ("actions", Json.arr [Json.str "Fix"])]) :=
  c4_span_verbatim c4_contained_object_text "d" c4_contained_object_text _ rfl rfl

/-- Claim C5: the status-update patch contains `resolved_at` whenever the
supplied status case-insensitively equals "resolved", and contains no
`resolved_at` key at all when the supplied status is "pending". -/
theorem c5_resolved_at_keyed_on_status (status notes : String) (pf : Option String) :
    (pyLower status = "resolved" →
      hasKey (update_status_update_data status notes pf) "resolved_at" = true) ∧
    (status = "pending" →
      hasKey (update_status_update_data status notes pf) "resolved_at" = false) := by
  constructor
  · intro h
    exact (update_patch_resolved_at status notes pf).mpr h
  · intro h
    subst h
    cases hk : hasKey (update_status_update_data "pending" notes pf) "resolved_at" with
    | false => rfl
    | true =>
      have h2 := (update_patch_resolved_at "pending" notes pf).mp hk
      have h3 : pyLower "pending" = "pending" := rfl
      rw [h3] at h2
      exact absurd h2 (by decide)

/-- Witness for C5 at concrete statuses "ResolVED" and "pending". -/
theorem c5_resolved_at_keyed_on_status_witness :
    hasKey (update_status_update_data "ResolVED" "n" none) "resolved_at" = true ∧
    hasKey (update_status_update_data "pending" "n" none) "resolved_at" = false :=
  ⟨(c5_resolved_at_keyed_on_status "ResolVED" "n" none).1 rfl,
   (c5_resolved_at_keyed_on_status "pending" "n" none).2 rfl⟩

/-- Claim C6: the response view never contains the raw server-timestamp
sentinel among its values; `updated_at` is rendered as the literal marker
string, and the `resolved_at` marker is present exactly when `resolved_at`
was written in the patch. -/
theorem c6_response_view_sanitized (status notes : String) (pf : Option String) :
    Json.serverTimestamp ∉ dictValues
      (update_status_response_update (update_status_update_data status notes pf)) ∧
    dictGet (update_status_response_update (update_status_update_data status notes pf))
        "updated_at" = some (Json.str "SERVER_TIMESTAMP") ∧
    (dictGet (update_status_response_update (update_status_update_data status notes pf))
        "resolved_at" = some (Json.str "SERVER_TIMESTAMP") ↔
      hasKey (update_status_update_data status notes pf) "resolved_at" = true) := by
  cases pf <;> by_cases hres : pyLower status = "resolved" <;>
    simp [update_status_update_data, hres, update_status_response_update, hasKey,
      dictInsert, dictGet, dictValues]

/-- Witness for C6 at a concrete resolving update. -/
theorem c6_response_view_sanitized_witness :
    dictGet (update_status_response_update (update_status_update_data "Resolved" "fixed" none))
      "resolved_at" = some (Json.str "SERVER_TIMESTAMP") :=
  ((c6_response_view_sanitized "Resolved" "fixed" none).2.2).mpr rfl

/-- Claim C7: on an existing issue, whatever its prior state, the assignment
patch sets the officer id and name, forces status "In-Progress", and writes
the `assigned_at` server timestamp. -/
theorem c7_assignment_patch (db : Db) (issue_id oid oname : String)
    (h : ∃ doc, dbGet db issue_id = some doc) :
    assign_officer db issue_id oid oname = Except.ok
      [("assigned_officer_id", Json.str oid),
       ("assigned_officer_name", Json.str oname),
       ("status", Json.str "In-Progress"),
       ("assigned_at", Json.serverTimestamp)] := by
  obtain ⟨doc, hd⟩ := h
  rw [assign_officer, hd]
  rfl

/-- Witness for C7 on a one-issue database. -/
theorem c7_assignment_patch_witness :
    assign_officer [("i1", default_issue_doc "d" "0" "0" none "t")] "i1" "off-1" "J. Doe" =
      Except.ok
        [("assigned_officer_id", Json.str "off-1"),
         ("assigned_officer_name", Json.str "J. Doe"),
         ("status", Json.str "In-Progress"),
         ("assigned_at", Json.serverTimestamp)] :=
  c7_assignment_patch _ "i1" "off-1" "J. Doe" ⟨_, rfl⟩

/-- Claim C8 counterexample: the status enum is not an invariant of this
layer — a status update persists the caller's string unvalidated, so a
reachable record can carry status "Bogus". -/
theorem c8_counterexample :
    ¬ (∀ (m : ModelOutcome) (descr lat lon created : String) (img : Option String)
         (d0 : PyDict) (ops : List WorkOp),
        report_issue_issue_data m descr lat lon img created = Except.ok d0 →
        StatusInEnum (runOps d0 ops)) := by
  intro h
  have hbad := h (ModelOutcome.failure "down") "d" "0" "0" "t" none
    (default_issue_doc "d" "0" "0" none "t") [WorkOp.updateStatus "Bogus" "" none]
    (report_issue_always_defaults _ _ _ _ _ _)
  have hc : dictGet (runOps (default_issue_doc "d" "0" "0" none "t")
      [WorkOp.updateStatus "Bogus" "" none]) "status" = some (Json.str "Bogus") := rfl
  rcases hbad with h1 | h1 | h1 <;> rw [hc] at h1 <;>
    injection h1 with h2 <;> injection h2 with h3 <;> exact absurd h3 (by decide)

/-- Claim C8 as amended: creation writes status "Pending" and assignment
"In-Progress", both in the enum; a status update writes the caller-supplied
string, so the enum invariant holds exactly for traces whose status updates
supply one of the three enumerated values. -/
theorem c8_status_enum_for_enum_callers (m : ModelOutcome)
    (descr lat lon created : String) (img : Option String) (d0 : PyDict)
    (ops : List WorkOp)
    (h0 : report_issue_issue_data m descr lat lon img created = Except.ok d0)
    (hops : ∀ op ∈ ops, OpKeepsEnum op) :
    StatusInEnum (runOps d0 ops) := by
  rw [report_ok_default m descr lat lon created img d0 h0]
  exact runOps_status_enum ops _
    (Or.inl (default_issue_doc_status descr lat lon created img)) hops

/-- Witness for C8's amended theorem: a creation followed by an assignment
and an enum-valued update stays in the enum. -/
theorem c8_status_enum_for_enum_callers_witness :
    StatusInEnum (runOps (default_issue_doc "d" "0" "0" none "t")
      [WorkOp.assignOfficer "o" "n", WorkOp.updateStatus "Resolved" "done" none]) :=
  c8_status_enum_for_enum_callers (ModelOutcome.failure "down") "d" "0" "0" "t" none _ _
    (report_issue_always_defaults _ _ _ _ _ _)
    (by
      intro op hop
      simp at hop
      rcases hop with rfl | rfl
      · trivial
      · exact Or.inr (Or.inr rfl))

/-- Claim C9 counterexample: `resolved_at` present does not imply status
"Resolved" — an update with the lowercase status "resolved" writes
`resolved_at` while persisting the raw string "resolved". -/
theorem c9_counterexample :
    ¬ (∀ (m : ModelOutcome) (descr lat lon created : String) (img : Option String)
         (d0 : PyDict) (ops : List WorkOp),
        report_issue_issue_data m descr lat lon img created = Except.ok d0 →
        hasKey (runOps d0 ops) "resolved_at" = true →
        dictGet (runOps d0 ops) "status" = some (Json.str "Resolved")) := by
  intro h
  have hbad := h (ModelOutcome.failure "down") "d" "0" "0" "t" none
    (default_issue_doc "d" "0" "0" none "t") [WorkOp.updateStatus "resolved" "" none]
    (report_issue_always_defaults _ _ _ _ _ _) rfl
  have hc : dictGet (runOps (default_issue_doc "d" "0" "0" none "t")
      [WorkOp.updateStatus "resolved" "" none]) "status" = some (Json.str "resolved") := rfl
  rw [hc] at hbad
  injection hbad with h2
  injection h2 with h3
  exact absurd h3 (by decide)

/-- Claim C9 as amended: `resolved_at` appears in a reachable record only
if some status update in its history supplied a status case-insensitively
equal to "resolved" (the raw supplied string — not necessarily "Resolved" —
is what gets persisted, and later operations never clear `resolved_at`). -/
theorem c9_resolved_at_needs_resolved_update (m : ModelOutcome)
    (descr lat lon created : String) (img : Option String) (d0 : PyDict)
    (ops : List WorkOp)
    (h0 : report_issue_issue_data m descr lat lon img created = Except.ok d0)
    (h : hasKey (runOps d0 ops) "resolved_at" = true) :
    ∃ op ∈ ops, IsResolvedUpdate op := by
  rw [report_ok_default m descr lat lon created img d0 h0] at h
  rcases runOps_resolved_at ops _ h with h1 | h1
  · rw [default_issue_doc_no_resolved_at] at h1
    cases h1
  · exact h1

/-- Witness for C9's amended theorem on a concrete resolving trace. -/
theorem c9_resolved_at_needs_resolved_update_witness :
    ∃ op ∈ [WorkOp.updateStatus "Resolved" "fixed" none], IsResolvedUpdate op :=
  c9_resolved_at_needs_resolved_update (ModelOutcome.failure "down") "d" "0" "0" "t" none _ _
    (report_issue_always_defaults _ _ _ _ _ _) rfl

/-- Claim C10: whatever the model outcome — failure, unparsable text, or a
perfect four-field JSON response — the persisted record's AI fields are the
creation path's local defaults, because `json.loads` is applied to the dict
`analyze_issue` returns and always raises. -/
theorem c10_ai_fields_always_creation_defaults (m : ModelOutcome)
    (descr lat lon created : String) (img : Option String) :
    ∃ d2, report_issue_issue_data m descr lat lon img created = Except.ok d2 ∧
      dictGet d2 "severity" = some (Json.str "Pending") ∧
      dictGet d2 "category" = some (Json.str "Other") ∧
      dictGet d2 "department" = some (Json.str "Municipality") ∧
      dictGet d2 "suggested_actions" = some (Json.arr []) := by
  refine ⟨_, report_issue_always_defaults _ _ _ _ _ _, ?_, ?_, ?_, ?_⟩ <;>
    simp [default_issue_doc, dictGet]

end Civic
